import Mathlib

/-!
Verification of the camera device actor of `src/src-tauri/src/camera.rs`.

The worker thread (`camera_thread`) owns an `Option<Camera>` and processes
commands received on an mpsc channel one at a time.  We embed the body of
the loop as a pure step function over the worker state, parameterised by an
environment that supplies the results of the external device / codec calls
(`Camera::new`, `open_stream`, `frame`, `decode_image`, JPEG encoding,
base64).  Each step also records the list of device operations it attempted,
so that ordering claims ("previous device is stopped before the new one is
opened") and non-attempt claims ("no frame acquisition is attempted") can be
stated about the code.
-/

namespace Chrono

/-- Raw frame bytes handed back by `cam.frame()` (abstracted). -/
abbrev Frame : Type := List Nat

/-- Decoded RGB image handed back by `frame.decode_image::<RgbFormat>()` (abstracted). -/
abbrev Img : Type := List Nat

/-- `CameraStatus` of camera.rs: status info returned to the frontend. -/
structure CameraStatus where
  is_active : Bool
  device_name : Option String
  resolution : Option (Nat × Nat)
deriving Repr, DecidableEq

/-- The open camera held by the worker: what the code reads from the handle
(`cam.info().human_name()`, `cam.resolution()`). -/
structure Cam where
  name : String
  width : Nat
  height : Nat
deriving Repr, DecidableEq

/-- `CameraCommand` of camera.rs, without the per-call reply channels
(replies are the return value of the step function). -/
inductive CameraCommand where
  | start (device_id : Option String)
  | stop
  | capture (quality : Nat)
  | getStatus
deriving Repr, DecidableEq

/-- The reply sent back on the command's reply channel. -/
inductive Reply where
  | startR (r : Except String CameraStatus)
  | stopR (r : Except String Unit)
  | captureR (r : Except String String)
  | statusR (r : Except String CameraStatus)
deriving Repr

/-- External device operations the worker attempts, in order. -/
inductive DevAction where
  | stopStream (name : String)
  | newCam (idx : Nat)
  | openStream (name : String)
  | frameAcquire (name : String)
  | decodeFrame
  | encodeJpeg (quality : Nat)
deriving Repr, DecidableEq

/-- Environment: outcomes of the external nokhwa / image / base64 calls.
`stop_stream` has no field because its result is discarded (`.ok()`). -/
structure Env where
  newCam : Nat → Except String Cam
  openStream : Cam → Except String Unit
  frame : Cam → Except String Frame
  decode : Frame → Except String Img
  encode : Nat → Img → Except String (List Nat)
  b64 : List Nat → String

/-- Digits-to-value helper for the model of Rust `str::parse::<u32>`:
requires a non-empty all-digit list. -/
def parseDigits : List Char → Option Nat
  | [] => none
  | cs =>
    if cs.all Char.isDigit then
      some (cs.foldl (fun a c => a * 10 + (c.toNat - 48)) 0)
    else none

/-- Model of Rust `str::parse::<u32>()`: an optional leading plus sign, then
one or more ASCII digits, value below 2^32; anything else is an error. -/
def parseU32 (s : String) : Option Nat :=
  let cs :=
    match s.data with
    | '+' :: rest => rest
    | cs => cs
  match parseDigits cs with
  | some v => if v < 2 ^ 32 then some v else none
  | none => none

/-- The index computation of the `Start` arm:
`Some(id) => CameraIndex::Index(id.parse().unwrap_or(0))`, `None => Index(0)`. -/
def deviceIndex : Option String → Nat
  | some id => (parseU32 id).getD 0
  | none => 0

/-- The `Start` arm of `camera_thread` after the old camera has been taken
and stopped: create the camera at the parsed index, open the stream, build
the status, store the handle.  Returns (new state, reply, actions). -/
def startOpen (env : Env) (device_id : Option String) :
    Option Cam × Except String CameraStatus × List DevAction :=
  let index := deviceIndex device_id
  match env.newCam index with
  | .error e =>
      (none, .error ("Failed to create camera: " ++ e), [DevAction.newCam index])
  | .ok cam =>
      match env.openStream cam with
      | .error e =>
          (none, .error ("Failed to open camera stream: " ++ e),
            [DevAction.newCam index, DevAction.openStream cam.name])
      | .ok _ =>
          (some cam,
            .ok { is_active := true, device_name := some cam.name,
                  resolution := some (cam.width, cam.height) },
            [DevAction.newCam index, DevAction.openStream cam.name])

/-- The full `Start` arm: `if let Some(mut cam) = camera.take() { cam.stop_stream().ok(); }`
then `startOpen`.  The stop result is discarded by the code, so it does not
appear in the environment at all. -/
def startCmd (env : Env) (camera : Option Cam) (device_id : Option String) :
    Option Cam × Except String CameraStatus × List DevAction :=
  let r := startOpen env device_id
  match camera with
  | some cam => (r.1, r.2.1, DevAction.stopStream cam.name :: r.2.2)
  | none => r

/-- The `Stop` arm: take and stop any camera (result discarded), reply `Ok(())`. -/
def stopCmd (camera : Option Cam) :
    Option Cam × Except String Unit × List DevAction :=
  match camera with
  | some cam => (none, .ok (), [DevAction.stopStream cam.name])
  | none => (none, .ok (), [])

/-- The `Capture` arm: require an open camera, acquire a frame, decode,
JPEG-encode at the given quality, base64-wrap with the data-URL marker. -/
def captureCmd (env : Env) (camera : Option Cam) (quality : Nat) :
    Option Cam × Except String String × List DevAction :=
  match camera with
  | none => (none, .error "Camera not started", [])
  | some cam =>
      match env.frame cam with
      | .error e =>
          (some cam, .error ("Failed to capture frame: " ++ e),
            [DevAction.frameAcquire cam.name])
      | .ok fr =>
          match env.decode fr with
          | .error e =>
              (some cam, .error ("Failed to decode frame: " ++ e),
                [DevAction.frameAcquire cam.name, DevAction.decodeFrame])
          | .ok img =>
              match env.encode quality img with
              | .error e =>
                  (some cam, .error ("Failed to encode JPEG: " ++ e),
                    [DevAction.frameAcquire cam.name, DevAction.decodeFrame,
                      DevAction.encodeJpeg quality])
              | .ok bytes =>
                  (some cam,
                    .ok ("data:image/jpeg;base64," ++ env.b64 bytes),
                    [DevAction.frameAcquire cam.name, DevAction.decodeFrame,
                      DevAction.encodeJpeg quality])

/-- The `GetStatus` arm: inspect the handle without mutating it. -/
def getStatusCmd (camera : Option Cam) :
    Option Cam × Except String CameraStatus × List DevAction :=
  match camera with
  | some cam =>
      (some cam,
        .ok { is_active := true, device_name := some cam.name,
              resolution := some (cam.width, cam.height) }, [])
  | none =>
      (none,
        .ok { is_active := false, device_name := none, resolution := none }, [])

/-- One iteration of the `camera_thread` loop: dispatch on the received
command, returning the new worker state, the reply sent on the command's
reply channel, and the device actions attempted. -/
def step (env : Env) (camera : Option Cam) :
    CameraCommand → Option Cam × Reply × List DevAction
  | .start did =>
      let r := startCmd env camera did
      (r.1, .startR r.2.1, r.2.2)
  | .stop =>
      let r := stopCmd camera
      (r.1, .stopR r.2.1, r.2.2)
  | .capture q =>
      let r := captureCmd env camera q
      (r.1, .captureR r.2.1, r.2.2)
  | .getStatus =>
      let r := getStatusCmd camera
      (r.1, .statusR r.2.1, r.2.2)

/-- The quality computation of the `capture_frame` command facade:
`quality.unwrap_or(90)`. -/
def capture_frame_quality (quality : Option Nat) : Nat := quality.getD 90

/-- `CameraStatus` consistency: `is_active` iff both fields are present. -/
def statusConsistent (s : CameraStatus) : Bool :=
  s.is_active == (s.device_name.isSome && s.resolution.isSome)

/-- The statuses carried by a reply (successful Start or GetStatus replies). -/
def replyStatuses : Reply → List CameraStatus
  | .startR (.ok s) => [s]
  | .statusR (.ok s) => [s]
  | _ => []

/-- A request travelling through the mpsc channel: the command together with
the environment (external-world outcomes) its execution will see. -/
def Req : Type := Env × CameraCommand

/-- System state for the channel/worker model: the mpsc queue holds pending
requests in send order; the worker holds the camera; `enqueued` and
`processed` are history variables recording the send order and the order the
worker actually executed commands in. -/
structure Sys where
  queue : List Req
  camera : Option Cam
  enqueued : List Req
  processed : List Req

/-- Initial system: empty channel, `camera = None`, no history. -/
def sysInit : Sys :=
  { queue := [], camera := none, enqueued := [], processed := [] }

/-- A system transition: either some caller thread sends a request into the
channel (mpsc append), or the worker receives the request at the head of the
queue and runs one loop iteration on it.  Caller sends may interleave
arbitrarily; the worker only ever executes the head, one request at a time
to completion. -/
inductive SysStep : Sys → Sys → Prop where
  | send (c : Req) (s : Sys) :
      SysStep s { s with queue := s.queue ++ [c], enqueued := s.enqueued ++ [c] }
  | work (c : Req) (rest : List Req) (s : Sys) (h : s.queue = c :: rest) :
      SysStep s { s with queue := rest,
                         camera := (step c.1 s.camera c.2).1,
                         processed := s.processed ++ [c] }

/-- The worker state obtained by running the loop sequentially over a list
of requests from the closed initial state. -/
def runSeq (reqs : List Req) : Option Cam :=
  reqs.foldl (fun st c => (step c.1 st c.2).1) none

/-- FIFO / serialization invariant: the requests executed so far, followed by
those still pending, are exactly the requests sent, in send order; and the
worker state is the sequential fold of the step function over the executed
prefix. -/
def SysInv (s : Sys) : Prop :=
  s.enqueued = s.processed ++ s.queue ∧ s.camera = runSeq s.processed

/-- The registry slot of `CameraState` together with instrumentation: how
many worker threads have been spawned, and a counter generating fresh
channel endpoints. -/
structure Registry where
  slot : Option Nat
  nextId : Nat
  spawned : Nat
deriving Repr, DecidableEq

/-- `get_or_create_sender` of camera.rs, one call while the mutex is held:
if the slot is empty, create a channel, spawn the worker, store the sending
endpoint; then return a clone of the stored endpoint.  The mutex serializes
the check-and-set, so successive calls compose sequentially. -/
def get_or_create_sender (r : Registry) : Nat × Registry :=
  match r.slot with
  | some tx => (tx, r)
  | none =>
      (r.nextId,
        { slot := some r.nextId, nextId := r.nextId + 1, spawned := r.spawned + 1 })

/-- The process starts with an empty slot (`CameraState::default`). -/
def regInit : Registry := { slot := none, nextId := 0, spawned := 0 }

/-- Registry state after `n` successive (lock-serialized) calls. -/
def afterCalls : Registry → Nat → Registry
  | r, 0 => r
  | r, n + 1 => afterCalls (get_or_create_sender r).2 n

/-- The endpoints returned by `n` successive calls, in call order. -/
def callOutputs : Registry → Nat → List Nat
  | _, 0 => []
  | r, n + 1 => (get_or_create_sender r).1 :: callOutputs (get_or_create_sender r).2 n

/-- A concrete test camera. -/
def camT : Cam := { name := "TestCam", width := 640, height := 480 }

/-- A concrete environment in which every external call succeeds. -/
def envTest : Env where
  newCam := fun _ => .ok camT
  openStream := fun _ => .ok ()
  frame := fun _ => .ok [1, 2, 3]
  decode := fun fr => .ok fr
  encode := fun _ _ => .ok [255, 216]
  b64 := fun _ => "/9g="

/-- A concrete environment in which frame acquisition fails. -/
def envFrameErr : Env where
  newCam := fun _ => .ok camT
  openStream := fun _ => .ok ()
  frame := fun _ => .error "oops"
  decode := fun fr => .ok fr
  encode := fun _ _ => .ok [255, 216]
  b64 := fun _ => "/9g="

/-- A concrete environment in which creating the camera fails. -/
def envNewErr : Env where
  newCam := fun _ => .error "busy"
  openStream := fun _ => .ok ()
  frame := fun _ => .ok [1, 2, 3]
  decode := fun fr => .ok fr
  encode := fun _ _ => .ok [255, 216]
  b64 := fun _ => "/9g="

/-- Claim C1: every `CameraStatus` a command reply carries (Start on success,
GetStatus in either state) satisfies the consistency invariant: `is_active`
iff both `device_name` and `resolution` are present, and the status is
either fully populated and active or fully empty and inactive. -/
theorem claim_C1_status_consistency :
    ∀ (env : Env) (camera : Option Cam) (cmd : CameraCommand),
      ∀ s ∈ replyStatuses (step env camera cmd).2.1,
        statusConsistent s = true ∧
        ((∃ n r, s = { is_active := true, device_name := some n, resolution := some r }) ∨
          s = { is_active := false, device_name := none, resolution := none }) := by
  intro env camera cmd s hs
  cases cmd with
  | start did =>
    cases camera with
    | none =>
      simp only [step, startCmd, startOpen, replyStatuses] at hs
      cases hn : env.newCam (deviceIndex did) with
      | error e => simp [hn, replyStatuses] at hs
      | ok cam =>
        cases ho : env.openStream cam with
        | error e => simp [hn, ho, replyStatuses] at hs
        | ok u =>
          simp [hn, ho, replyStatuses] at hs
          subst hs
          exact ⟨rfl, Or.inl ⟨cam.name, (cam.width, cam.height), rfl⟩⟩
    | some cam0 =>
      simp only [step, startCmd, startOpen, replyStatuses] at hs
      cases hn : env.newCam (deviceIndex did) with
      | error e => simp [hn, replyStatuses] at hs
      | ok cam =>
        cases ho : env.openStream cam with
        | error e => simp [hn, ho, replyStatuses] at hs
        | ok u =>
          simp [hn, ho, replyStatuses] at hs
          subst hs
          exact ⟨rfl, Or.inl ⟨cam.name, (cam.width, cam.height), rfl⟩⟩
  | stop =>
    cases camera <;> simp [step, stopCmd, replyStatuses] at hs
  | capture q =>
    cases camera with
    | none => simp [step, captureCmd, replyStatuses] at hs
    | some cam =>
      cases hf : env.frame cam with
      | error e => simp [step, captureCmd, hf, replyStatuses] at hs
      | ok fr =>
        cases hd : env.decode fr with
        | error e => simp [step, captureCmd, hf, hd, replyStatuses] at hs
        | ok img =>
          cases he : env.encode q img <;>
            simp [step, captureCmd, hf, hd, he, replyStatuses] at hs
  | getStatus =>
    cases camera with
    | none =>
      simp [step, getStatusCmd, replyStatuses] at hs
      subst hs
      exact ⟨rfl, Or.inr rfl⟩
    | some cam =>
      simp [step, getStatusCmd, replyStatuses] at hs
      subst hs
      exact ⟨rfl, Or.inl ⟨cam.name, (cam.width, cam.height), rfl⟩⟩

/-- Witness for C1 at a concrete input: GetStatus on the closed state. -/
theorem claim_C1_witness :
    statusConsistent { is_active := false, device_name := none, resolution := none } = true ∧
    ((∃ n r, ({ is_active := false, device_name := none, resolution := none } : CameraStatus) =
        { is_active := true, device_name := some n, resolution := some r }) ∨
      ({ is_active := false, device_name := none, resolution := none } : CameraStatus) =
        { is_active := false, device_name := none, resolution := none }) :=
  claim_C1_status_consistency envTest none CameraCommand.getStatus _
    (by simp [step, getStatusCmd, replyStatuses])

/-- Claim C4: Capture received while Closed replies with the
"Camera not started" error, attempts no device operation (in particular no
frame acquisition), and leaves the state Closed. -/
theorem claim_C4_capture_closed :
    ∀ (env : Env) (q : Nat),
      step env none (CameraCommand.capture q) =
        (none, Reply.captureR (.error "Camera not started"), []) := by
  intro env q
  rfl

/-- Claim C5: Stop replies `Ok(())` from either state and leaves the state
Closed; a second consecutive Stop also succeeds. -/
theorem claim_C5_stop_idempotent :
    ∀ (env1 env2 : Env) (camera : Option Cam),
      (step env1 camera CameraCommand.stop).1 = none ∧
      (step env1 camera CameraCommand.stop).2.1 = Reply.stopR (.ok ()) ∧
      (step env2 (step env1 camera CameraCommand.stop).1 CameraCommand.stop).2.1 =
        Reply.stopR (.ok ()) := by
  intro env1 env2 camera
  cases camera <;> exact ⟨rfl, rfl, rfl⟩

/-- Claim C6: Capture while Open never changes the state (same handle, name,
resolution), and each failing pipeline stage yields the corresponding
descriptive error. -/
theorem claim_C6_capture_failure_preserves :
    ∀ (env : Env) (cam : Cam) (q : Nat),
      (step env (some cam) (CameraCommand.capture q)).1 = some cam ∧
      (∀ e, env.frame cam = .error e →
        (step env (some cam) (CameraCommand.capture q)).2.1 =
          Reply.captureR (.error ("Failed to capture frame: " ++ e))) ∧
      (∀ fr e, env.frame cam = .ok fr → env.decode fr = .error e →
        (step env (some cam) (CameraCommand.capture q)).2.1 =
          Reply.captureR (.error ("Failed to decode frame: " ++ e))) ∧
      (∀ fr img e, env.frame cam = .ok fr → env.decode fr = .ok img →
        env.encode q img = .error e →
        (step env (some cam) (CameraCommand.capture q)).2.1 =
          Reply.captureR (.error ("Failed to encode JPEG: " ++ e))) := by
  intro env cam q
  refine ⟨?_, ?_, ?_, ?_⟩
  · cases hf : env.frame cam with
    | error e => simp [step, captureCmd, hf]
    | ok fr =>
      cases hd : env.decode fr with
      | error e => simp [step, captureCmd, hf, hd]
      | ok img =>
        cases he : env.encode q img <;> simp [step, captureCmd, hf, hd, he]
  · intro e he
    simp [step, captureCmd, he]
  · intro fr e h1 h2
    simp [step, captureCmd, h1, h2]
  · intro fr img e h1 h2 h3
    simp [step, captureCmd, h1, h2, h3]

/-- Witness for C6 at a concrete input: frame acquisition fails. -/
theorem claim_C6_witness :
    (step envFrameErr (some camT) (CameraCommand.capture 90)).1 = some camT ∧
    (step envFrameErr (some camT) (CameraCommand.capture 90)).2.1 =
      Reply.captureR (.error ("Failed to capture frame: " ++ "oops")) :=
  ⟨(claim_C6_capture_failure_preserves envFrameErr camT 90).1,
    (claim_C6_capture_failure_preserves envFrameErr camT 90).2.1 "oops" rfl⟩

/-- Claim C7: Start while Open stops the previous device first (the stop
action precedes every open action, and its discarded result cannot affect
the outcome: state, reply and remaining actions are exactly those of Start
from Closed), and a failed create or open leaves the state Closed with a
descriptive error. -/
theorem claim_C7_start_supersedes :
    ∀ (env : Env) (cam : Cam) (did : Option String),
      (step env (some cam) (CameraCommand.start did)).1 =
        (step env none (CameraCommand.start did)).1 ∧
      (step env (some cam) (CameraCommand.start did)).2.1 =
        (step env none (CameraCommand.start did)).2.1 ∧
      (step env (some cam) (CameraCommand.start did)).2.2 =
        DevAction.stopStream cam.name :: (step env none (CameraCommand.start did)).2.2 ∧
      (∀ e, env.newCam (deviceIndex did) = .error e →
        (step env (some cam) (CameraCommand.start did)).1 = none ∧
        (step env (some cam) (CameraCommand.start did)).2.1 =
          Reply.startR (.error ("Failed to create camera: " ++ e))) ∧
      (∀ c2 e, env.newCam (deviceIndex did) = .ok c2 → env.openStream c2 = .error e →
        (step env (some cam) (CameraCommand.start did)).1 = none ∧
        (step env (some cam) (CameraCommand.start did)).2.1 =
          Reply.startR (.error ("Failed to open camera stream: " ++ e))) := by
  intro env cam did
  refine ⟨rfl, rfl, rfl, ?_, ?_⟩
  · intro e hn
    constructor <;> simp [step, startCmd, startOpen, hn]
  · intro c2 e hn ho
    constructor <;> simp [step, startCmd, startOpen, hn, ho]

/-- Witness for C7 at a concrete input: creating the new camera fails. -/
theorem claim_C7_witness :
    (step envNewErr (some camT) (CameraCommand.start (some "1"))).1 = none ∧
    (step envNewErr (some camT) (CameraCommand.start (some "1"))).2.1 =
      Reply.startR (.error ("Failed to create camera: " ++ "busy")) :=
  (claim_C7_start_supersedes envNewErr camT (some "1")).2.2.2.1 "busy" rfl

/-- Claim C8: the quality used for encoding is the caller-supplied value
when given and 90 otherwise, and it reaches the JPEG encoder unchanged: the
encode action carries exactly the command's quality, and the encoder's own
verdict alone decides the capture result. -/
theorem claim_C8_quality_passthrough :
    (∀ q : Nat, capture_frame_quality (some q) = q) ∧
    capture_frame_quality none = 90 ∧
    (∀ (env : Env) (cam : Cam) (q : Nat) (fr : Frame) (img : Img),
      env.frame cam = .ok fr → env.decode fr = .ok img →
      DevAction.encodeJpeg q ∈ (step env (some cam) (CameraCommand.capture q)).2.2 ∧
      (step env (some cam) (CameraCommand.capture q)).2.1 =
        Reply.captureR (Except.map
          (fun bytes => "data:image/jpeg;base64," ++ env.b64 bytes)
          (Except.mapError
            (fun e => "Failed to encode JPEG: " ++ e)
            (env.encode q img)))) := by
  refine ⟨fun q => rfl, rfl, ?_⟩
  intro env cam q fr img h1 h2
  cases he : env.encode q img <;>
    simp [step, captureCmd, h1, h2, he, Except.map, Except.mapError]

/-- Witness for C8 at a concrete input. -/
theorem claim_C8_witness :
    DevAction.encodeJpeg 90 ∈ (step envTest (some camT) (CameraCommand.capture 90)).2.2 ∧
    (step envTest (some camT) (CameraCommand.capture 90)).2.1 =
      Reply.captureR (Except.map
        (fun bytes => "data:image/jpeg;base64," ++ envTest.b64 bytes)
        (Except.mapError
          (fun e => "Failed to encode JPEG: " ++ e)
          (envTest.encode 90 [1, 2, 3]))) :=
  claim_C8_quality_passthrough.2.2 envTest camT 90 [1, 2, 3] [1, 2, 3] rfl rfl

/-- Claim C9: every successful Capture reply is the data-URL marker
followed by the base64 encoding of the JPEG bytes the encoder produced, and
is in particular non-empty. -/
theorem claim_C9_data_url :
    ∀ (env : Env) (cam : Cam) (q : Nat) (s : String),
      (step env (some cam) (CameraCommand.capture q)).2.1 = Reply.captureR (.ok s) →
      (∃ fr img bytes, env.frame cam = .ok fr ∧ env.decode fr = .ok img ∧
        env.encode q img = .ok bytes ∧
        s = "data:image/jpeg;base64," ++ env.b64 bytes) ∧
      s ≠ "" := by
  intro env cam q s hs
  cases hf : env.frame cam with
  | error e => simp [step, captureCmd, hf] at hs
  | ok fr =>
    cases hd : env.decode fr with
    | error e => simp [step, captureCmd, hf, hd] at hs
    | ok img =>
      cases he : env.encode q img with
      | error e => simp [step, captureCmd, hf, hd, he] at hs
      | ok bytes =>
        simp [step, captureCmd, hf, hd, he] at hs
        refine ⟨⟨fr, img, bytes, rfl, hd, he, hs.symm⟩, ?_⟩
        intro hemp
        rw [← hs] at hemp
        have hlen := congrArg String.length hemp
        simp [String.length_append] at hlen
        exact absurd hlen.1 (by decide)

/-- Witness for C9 at a concrete input. -/
theorem claim_C9_witness :
    ((∃ fr img bytes, envTest.frame camT = .ok fr ∧ envTest.decode fr = .ok img ∧
        envTest.encode 90 img = .ok bytes ∧
        ("data:image/jpeg;base64,/9g=" : String) =
          "data:image/jpeg;base64," ++ envTest.b64 bytes) ∧
      ("data:image/jpeg;base64,/9g=" : String) ≠ "") :=
  claim_C9_data_url envTest camT 90 "data:image/jpeg;base64,/9g=" rfl

/-- Claim C10: a device id that does not parse as a u32 (such as "abc" or
"-1") falls back to index 0: Start with such an id behaves exactly like
Start with "0". -/
theorem claim_C10_unparseable_id :
    parseU32 "abc" = none ∧ parseU32 "-1" = none ∧
    (∀ s : String, parseU32 s = none →
      ∀ (env : Env) (st : Option Cam),
        step env st (CameraCommand.start (some s)) =
          step env st (CameraCommand.start (some "0"))) := by
  refine ⟨by decide, by decide, ?_⟩
  intro s h env st
  have hidx : deviceIndex (some s) = deviceIndex (some "0") := by
    simp [deviceIndex, h]
    decide
  cases st <;> simp only [step, startCmd, startOpen, hidx]

/-- Witness for C10 at a concrete input. -/
theorem claim_C10_witness :
    step envTest none (CameraCommand.start (some "abc")) =
      step envTest none (CameraCommand.start (some "0")) :=
  claim_C10_unparseable_id.2.2 "abc" (by decide) envTest none

/-- The invariant holds initially. -/
lemma sysInv_init : SysInv sysInit := ⟨rfl, rfl⟩

/-- The invariant is preserved by every system transition. -/
lemma sysInv_preserved {a b : Sys} (ha : SysInv a) (h : SysStep a b) : SysInv b := by
  obtain ⟨h1, h2⟩ := ha
  cases h with
  | send c s =>
    exact ⟨by simp [h1], h2⟩
  | work c rest s hq =>
    refine ⟨?_, ?_⟩
    · simp [h1, hq]
    · simp [runSeq, List.foldl_append]
      rw [← runSeq, ← h2]

/-- Claim C2: in every reachable state of the channel/worker system — for
every interleaving of caller sends with worker executions — the worker has
executed the requests exactly in send order (FIFO: executed prefix plus
pending queue equals the send history), one at a time, and its camera state
is the sequential fold of the loop body over that executed prefix, i.e. a
single valid walk through the Closed/Open state machine. -/
theorem claim_C2_fifo_serialized :
    ∀ s : Sys, Relation.ReflTransGen SysStep sysInit s → SysInv s := by
  intro s h
  induction h with
  | refl => exact sysInv_init
  | tail _ hstep ih => exact sysInv_preserved ih hstep

/-- One concrete request: GetStatus under the all-ok environment. -/
def req1 : Req := (envTest, CameraCommand.getStatus)

/-- System after `req1` is sent. -/
def sys1 : Sys := { queue := [req1], camera := none, enqueued := [req1], processed := [] }

/-- System after the worker has executed `req1`. -/
def sys2 : Sys :=
  { queue := [], camera := (step envTest none CameraCommand.getStatus).1,
    enqueued := [req1], processed := [req1] }

/-- Witness for C2 at a concrete reachable state: one send, one execution. -/
theorem claim_C2_witness : SysInv sys2 :=
  claim_C2_fifo_serialized sys2
    (Relation.ReflTransGen.tail
      (Relation.ReflTransGen.single (SysStep.send req1 sysInit))
      (SysStep.work req1 [] sys1 rfl))

/-- Once the slot holds an endpoint, a call neither changes the registry
nor spawns anything, and returns that endpoint. -/
lemma get_or_create_sender_full (r : Registry) (v : Nat) (h : r.slot = some v) :
    get_or_create_sender r = (v, r) := by
  simp [get_or_create_sender, h]

/-- A registry whose slot is full is a fixed point of any number of calls,
and every call returns the stored endpoint. -/
lemma afterCalls_full (r : Registry) (v : Nat) (h : r.slot = some v) :
    ∀ n, afterCalls r n = r ∧ callOutputs r n = List.replicate n v := by
  intro n
  induction n with
  | zero => exact ⟨rfl, rfl⟩
  | succ n ih =>
    rw [afterCalls, callOutputs, get_or_create_sender_full r v h]
    exact ⟨ih.1, by rw [ih.2, List.replicate_succ]⟩

/-- Claim C3: the registry creates at most one worker.  A full slot is
never replaced (each later call returns the stored endpoint and leaves the
registry untouched), and from the initial empty state any positive number
of lock-serialized calls spawns exactly one worker, stores one endpoint,
and hands every caller that same endpoint. -/
theorem claim_C3_single_worker :
    (∀ (r : Registry) (v : Nat), r.slot = some v →
      (get_or_create_sender r).2 = r ∧ (get_or_create_sender r).1 = v) ∧
    (∀ n : Nat, 1 ≤ n →
      (afterCalls regInit n).spawned = 1 ∧
      (afterCalls regInit n).slot = some 0 ∧
      callOutputs regInit n = List.replicate n 0) := by
  constructor
  · intro r v h
    rw [get_or_create_sender_full r v h]
    exact ⟨rfl, rfl⟩
  · intro n hn
    match n, hn with
    | n + 1, _ =>
      rw [afterCalls, callOutputs]
      have hfix := afterCalls_full (get_or_create_sender regInit).2 0 rfl n
      rw [hfix.1, hfix.2]
      exact ⟨rfl, rfl, by rw [List.replicate_succ]; rfl⟩

/-- Witness for C3 at concrete inputs: a full registry is untouched, and
three calls from the initial state spawn one worker and all get endpoint 0. -/
theorem claim_C3_witness :
    ((get_or_create_sender { slot := some 5, nextId := 6, spawned := 1 }).2 =
        { slot := some 5, nextId := 6, spawned := 1 } ∧
      (get_or_create_sender { slot := some 5, nextId := 6, spawned := 1 }).1 = 5) ∧
    ((afterCalls regInit 3).spawned = 1 ∧
      (afterCalls regInit 3).slot = some 0 ∧
      callOutputs regInit 3 = List.replicate 3 0) :=
  ⟨claim_C3_single_worker.1 { slot := some 5, nextId := 6, spawned := 1 } 5 rfl,
    claim_C3_single_worker.2 3 (by decide)⟩

end Chrono
